import Mathlib

/-!
Verification of the Coriolis Minion Manager (coriolis/minion_manager/rpc/server.py)
against its natural-language specification.

The data model, store mutators and the Minion Manager operations are shallowly
embedded below.  Machine and pool rows follow the entities of the repository;
statuses are the constants the server compares against.  The store mutators of
coriolis/db/api.py are not part of the provided sources, so they are modelled
from the specification (each such definition says so in its doc comment); all
control flow is translated directly from server.py.
-/

namespace Coriolis

/-- Machine statuses (constants.MINION_MACHINE_STATUS_*). -/
inductive MachineStatus
  | uninitialized
  | available
  | inUse
  | healthchecking
  | deallocating
  | errorDeploying
  | error
  deriving DecidableEq, Repr

/-- Pool statuses (constants.MINION_POOL_STATUS_*). -/
inductive PoolStatus
  | deallocated
  | validatingInputs
  | allocatingSharedResources
  | allocatingMachines
  | allocated
  | poolMaintenance
  | deallocatingMachines
  | deallocatingSharedResources
  | error
  deriving DecidableEq, Repr

/-- Provider platforms (constants.PROVIDER_PLATFORM_*). -/
inductive Platform
  | source
  | destination
  deriving DecidableEq, Repr

/-- constants.OS_TYPE_LINUX. -/
def OS_TYPE_LINUX : String := "linux"

/-- Exception kinds raised by the Minion Manager (coriolis/exception.py is not
under the provided sources; the kinds are those named by server.py, plus the
Python-builtin AttributeError and an opaque stand-in for an injected database
failure). -/
inductive Exc
  | invalidInput
  | notFound
  | invalidMinionPoolState
  | invalidMinionPoolSelection
  | attributeError
  | dbError
  deriving DecidableEq, Repr

/-- A minion machine row (models.MinionMachine).  Timestamps are naturals. -/
structure MinionMachine where
  id : String
  pool_id : String
  status : MachineStatus
  allocated_action : Option String
  last_used_at : Option Nat
  deriving DecidableEq, Repr

/-- A minion pool row with its machines loaded (models.MinionPool). -/
structure MinionPool where
  id : String
  endpoint_id : String
  platform : Platform
  os_type : String
  status : PoolStatus
  minimum_minions : Nat
  maximum_minions : Nat
  minion_max_idle_time : Nat
  minion_machines : List MinionMachine
  deriving DecidableEq, Repr

/-! ## Refresh-period clamping and cron registration
(server.py, MinionManagerServerEndpoint._register_refresh_jobs_for_minion_pool
and _init_cron) -/

/-- The clamping of the configured refresh period performed at the top of
_register_refresh_jobs_for_minion_pool (server.py:87-98): values less than or
equal to zero become 1, values greater than 60 become 10. -/
def effective_refresh_period (period_minutes : Int) : Int :=
  if period_minutes ≤ 0 then 1
  else if period_minutes > 60 then 10
  else period_minutes

/-- The minutes at which refresh jobs fire: period * i for
i in range(ceil(60 / period)) (server.py:107-109). -/
def refresh_job_minutes (period_minutes : Int) : List Nat :=
  let p := (effective_refresh_period period_minutes).toNat
  (List.range ((60 + p - 1) / p)).map (fun i => p * i)

/-- A registered cron job (cron.CronJob as registered by server.py:114-118). -/
structure CronJob where
  name : String
  minute : Nat
  pool_id : String
  deriving DecidableEq, Repr

/-- MINION_POOL_REFRESH_CRON_JOB_NAME_FORMAT % (pool_id, minute). -/
def refresh_cron_job_name (pool_id : String) (minute : Nat) : String :=
  "pool-" ++ pool_id ++ "-refresh-minute-" ++ toString minute

/-- The cron job registered for a given pool and minute. -/
def refresh_cron_job (pool : MinionPool) (minute : Nat) : CronJob :=
  { name := refresh_cron_job_name pool.id minute
    minute := minute
    pool_id := pool.id }

/-- _register_refresh_jobs_for_minion_pool (server.py:85-118): registers one
job per minute of `refresh_job_minutes`. -/
def register_refresh_jobs_for_minion_pool
    (pool : MinionPool) (period_minutes : Int) : List CronJob :=
  (refresh_job_minutes period_minutes).map (refresh_cron_job pool)

/-- _init_cron (server.py:67-83): enumerates the pools and registers refresh
jobs for those in ALLOCATED status only. -/
def init_cron (pools : List MinionPool) (period_minutes : Int) : List CronJob :=
  (pools.filter (fun p => p.status == PoolStatus.allocated)).flatMap
    (fun p => register_refresh_jobs_for_minion_pool p period_minutes)

/-- The cron jobs registered by the startup constructor
MinionManagerServerEndpoint.__init__ (server.py:62-65).  The constructor
creates an empty cron engine and its call to _init_cron is commented out
(server.py:65 reads `# self._init_cron()`), so startup registers no jobs. -/
def minion_manager_startup_cron_jobs
    (_pools : List MinionPool) (_period_minutes : Int) : List CronJob :=
  []

/-! ## Machine store

The db_api store mutators are not part of the provided sources; they are
modelled from the specification (§4.1). -/

/-- The machine table of the store. -/
structure Store where
  machines : List MinionMachine
  deriving DecidableEq, Repr

/-- Modelled from the spec: db_api.get_minion_machine — fetch a machine row
by id (missing from src/; spec §4.1 store queries). -/
def get_minion_machine (st : Store) (mid : String) : Option MinionMachine :=
  st.machines.find? (fun m => m.id == mid)

/-- Row-level update applied by update_minion_machine. -/
def update_minion_machine_row (mid : String) (s : MachineStatus)
    (aa : Option String) (m : MinionMachine) : MinionMachine :=
  if m.id == mid then { m with status := s, allocated_action := aa } else m

/-- Modelled from the spec: db_api.update_minion_machine (missing from src/;
spec §4.1), restricted to the fields server.py passes to it
(status and allocated_action). -/
def update_minion_machine (st : Store) (mid : String) (s : MachineStatus)
    (aa : Option String) : Store :=
  { machines := st.machines.map (update_minion_machine_row mid s aa) }

/-- Modelled from the spec: db_api.set_minion_machine_status (missing from
src/; spec §4.1). -/
def set_minion_machine_status (st : Store) (mid : String) (s : MachineStatus) :
    Store :=
  { machines := st.machines.map
      (fun m => if m.id == mid then { m with status := s } else m) }

/-- Row-level effect of repeatedly applying set_minion_machine_status for a
list of machine ids (used to characterize the refresh-flow status sweeps). -/
def set_status_row (ids : List String) (s : MachineStatus)
    (m : MinionMachine) : MinionMachine :=
  if ids.contains m.id then { m with status := s } else m

/-- Row-level update applied by set_minion_machines_allocation_statuses. -/
def set_allocation_row (ids : List String) (aa : Option String)
    (s : MachineStatus) (refresh : Bool) (now : Nat) (m : MinionMachine) :
    MinionMachine :=
  if m.id ∈ ids then
    { m with status := s, allocated_action := aa
             last_used_at := if refresh then some now else m.last_used_at }
  else m

/-- Modelled from the spec: db_api.set_minion_machines_allocation_statuses
(missing from src/; spec §4.1): a transactional batch that sets the status
and allocated action of every listed machine, refreshing last_used_at when
asked to. -/
def set_minion_machines_allocation_statuses (st : Store) (ids : List String)
    (aa : Option String) (s : MachineStatus) (refresh : Bool) (now : Nat) :
    Store :=
  { machines := st.machines.map (set_allocation_row ids aa s refresh now) }

/-- Modelled from the spec: db_api.add_minion_machine (missing from src/;
spec §4.1). -/
def add_minion_machine (st : Store) (m : MinionMachine) : Store :=
  { machines := st.machines ++ [m] }

/-- Modelled from the spec: db_api.delete_minion_machine (missing from src/;
spec §4.1). -/
def delete_minion_machine (st : Store) (mid : String) : Store :=
  { machines := st.machines.filter (fun m => !(m.id == mid)) }

/-! ## Individual machine deallocation (server.py:912-945) -/

/-- deallocate_minion_machine (server.py:912-945): returns early when the
machine row is absent; otherwise (regardless of the machine's current status
or allocation, which only trigger a warning) updates the row to AVAILABLE
with a null allocated action. -/
def deallocate_minion_machine (st : Store) (mid : String) : Store :=
  match get_minion_machine st mid with
  | none => st
  | some _ => update_minion_machine st mid MachineStatus.available none

/-! ## Task-flow nodes -/

/-- The task/flow nodes composed by the flow builders of server.py.  The
healthcheck-with-reallocation graph flow built by
_get_healtchcheck_flow_for_minion_machine is represented as one node carrying
its parameters. -/
inductive FlowNode
  | updateStatus (pool_id : String) (status : PoolStatus)
      (revert : Option PoolStatus)
  | validateOptions (pool_id : String)
  | allocateShared (pool_id : String)
  | deallocateShared (pool_id : String)
  | allocateMachine (pool_id : String) (machine_id : String)
      (allocate_to_action : Option String)
  | deallocateMachine (pool_id : String) (machine_id : String)
  | healthcheckFlow (pool_id : String) (machine_id : String)
      (allocate_to_action : Option String) (status_on_success : MachineStatus)
  | unorderedSub (children : List FlowNode)

mutual

/-- Number of plain AllocateMinionMachineTask nodes in a flow node. -/
def count_allocate_machine_tasks : FlowNode → Nat
  | FlowNode.allocateMachine _ _ _ => 1
  | FlowNode.unorderedSub children => count_allocate_machine_tasks_list children
  | _ => 0

/-- Number of plain AllocateMinionMachineTask nodes in a flow. -/
def count_allocate_machine_tasks_list : List FlowNode → Nat
  | [] => 0
  | n :: rest =>
      count_allocate_machine_tasks n + count_allocate_machine_tasks_list rest

end

/-! ## Pool allocation flow (server.py:1169-1235) -/

/-- _get_minion_pool_allocation_flow (server.py:1169-1235).  Fresh machine
ids are drawn from the uuid stream `uuidGen`. -/
def get_minion_pool_allocation_flow (pool : MinionPool)
    (uuidGen : Nat → String) : List FlowNode :=
  let pool_machine_ids := (List.range pool.minimum_minions).map uuidGen
  let machines_flow := pool_machine_ids.map
    (fun mid => FlowNode.allocateMachine pool.id mid none)
  [FlowNode.updateStatus pool.id PoolStatus.validatingInputs
      (some PoolStatus.error),
   FlowNode.validateOptions pool.id,
   FlowNode.updateStatus pool.id PoolStatus.allocatingSharedResources none,
   FlowNode.allocateShared pool.id] ++
  (if machines_flow.isEmpty then []
   else [FlowNode.updateStatus pool.id PoolStatus.allocatingMachines none,
         FlowNode.unorderedSub machines_flow]) ++
  [FlowNode.updateStatus pool.id PoolStatus.allocated none]

/-! ## Pool deallocation (server.py:1296-1318, 1356-1400, 1412-1459) -/

/-- The machines _check_pool_machines_in_use (server.py:1296-1318) reports:
those in a status outside {AVAILABLE, ERROR_DEPLOYING, ERROR}. -/
def pool_machines_in_use (pool : MinionPool) : List MinionMachine :=
  pool.minion_machines.filter (fun m =>
    !(m.status == MachineStatus.available) &&
    !(m.status == MachineStatus.errorDeploying) &&
    !(m.status == MachineStatus.error))

/-- _get_minion_pool_deallocation_flow (server.py:1356-1400). -/
def get_minion_pool_deallocation_flow (pool : MinionPool) : List FlowNode :=
  let machine_tasks := pool.minion_machines.map
    (fun m => FlowNode.deallocateMachine pool.id m.id)
  (if machine_tasks.isEmpty then []
   else [FlowNode.updateStatus pool.id PoolStatus.deallocatingMachines
           (some PoolStatus.error),
         FlowNode.unorderedSub machine_tasks]) ++
  [FlowNode.updateStatus pool.id PoolStatus.deallocatingSharedResources
     (some PoolStatus.error),
   FlowNode.deallocateShared pool.id,
   FlowNode.updateStatus pool.id PoolStatus.deallocated none]

/-- Outcome of deallocate_minion_pool: an early return for an already
deallocated pool, or the launch of the deallocation flow. -/
inductive PoolDeallocationOutcome
  | earlyReturn
  | launched (flow : List FlowNode)

/-- deallocate_minion_pool (server.py:1412-1459): an already DEALLOCATED pool
returns early; a pool in a status outside {ALLOCATED, ERROR} raises unless
forced; machines in use make it raise unless forced; otherwise the
deallocation flow is launched. -/
def deallocate_minion_pool (pool : MinionPool) (force : Bool) :
    Except Exc PoolDeallocationOutcome :=
  if pool.status == PoolStatus.deallocated then
    Except.ok PoolDeallocationOutcome.earlyReturn
  else if (!(pool.status == PoolStatus.allocated) &&
           !(pool.status == PoolStatus.error)) && !force then
    Except.error Exc.invalidMinionPoolState
  else if !(pool_machines_in_use pool).isEmpty && !force then
    Except.error Exc.invalidMinionPoolState
  else
    Except.ok (PoolDeallocationOutcome.launched
      (get_minion_pool_deallocation_flow pool))

/-! ## Minion pool selection validation (server.py:257-422) -/

/-- The snapshot of a transfer action the Minion Manager receives. -/
structure ActionView where
  id : String
  origin_endpoint_id : String
  destination_endpoint_id : String
  origin_minion_pool_id : Option String
  destination_minion_pool_id : Option String
  instance_osmorphing_minion_pool_mappings : List (String × String)
  instances : List String
  deriving DecidableEq, Repr

/-- The pool lookup of validate_minion_pool_selections_for_action
(server.py:274-279). -/
def find_pool (pools : List MinionPool) (pid : String) : Option MinionPool :=
  pools.find? (fun p => p.id == pid)

/-- _check_pool_minion_count (server.py:280-301): the pool must be ALLOCATED
(else InvalidMinionPoolState) and the instance count must not exceed
maximum_minions (else InvalidMinionPoolSelection). -/
def check_pool_minion_count (pool : MinionPool) (instances : List String) :
    Except Exc Unit :=
  if !(pool.status == PoolStatus.allocated) then
    Except.error Exc.invalidMinionPoolState
  else if instances.length > pool.maximum_minions then
    Except.error Exc.invalidMinionPoolSelection
  else Except.ok ()

/-- The origin-pool checks of validate_minion_pool_selections_for_action
(server.py:303-335): existence, endpoint, source platform, Linux os_type,
then the count check. -/
def validate_origin_pool (pools : List MinionPool) (action : ActionView) :
    Except Exc Unit :=
  match action.origin_minion_pool_id with
  | none => Except.ok ()
  | some pid =>
    match find_pool pools pid with
    | none => Except.error Exc.notFound
    | some origin_pool =>
      if !(origin_pool.endpoint_id == action.origin_endpoint_id) then
        Except.error Exc.invalidMinionPoolSelection
      else if !(origin_pool.platform == Platform.source) then
        Except.error Exc.invalidMinionPoolSelection
      else if !(origin_pool.os_type == OS_TYPE_LINUX) then
        Except.error Exc.invalidMinionPoolSelection
      else check_pool_minion_count origin_pool action.instances

/-- The destination-pool checks of validate_minion_pool_selections_for_action
(server.py:337-371): existence, endpoint, destination platform, Linux
os_type, then the count check. -/
def validate_destination_pool (pools : List MinionPool) (action : ActionView) :
    Except Exc Unit :=
  match action.destination_minion_pool_id with
  | none => Except.ok ()
  | some pid =>
    match find_pool pools pid with
    | none => Except.error Exc.notFound
    | some destination_pool =>
      if !(destination_pool.endpoint_id == action.destination_endpoint_id) then
        Except.error Exc.invalidMinionPoolSelection
      else if !(destination_pool.platform == Platform.destination) then
        Except.error Exc.invalidMinionPoolSelection
      else if !(destination_pool.os_type == OS_TYPE_LINUX) then
        Except.error Exc.invalidMinionPoolSelection
      else check_pool_minion_count destination_pool action.instances

/-- Insertion-ordered grouping step for the OSMorphing mapping dictionary
(server.py:387-390). -/
def add_osmorphing_mapping (acc : List (String × List String))
    (pid iid : String) : List (String × List String) :=
  match acc with
  | [] => [(pid, [iid])]
  | (q, l) :: rest =>
    if q == pid then (q, l ++ [iid]) :: rest
    else (q, l) :: add_osmorphing_mapping rest pid iid

/-- The grouping of instance-to-OSMorphing-pool mappings restricted to the
instances present in the action (server.py:377-390); mappings for other
instances are skipped. -/
def group_osmorphing_mappings (mappings : List (String × String))
    (instances : List String) : List (String × List String) :=
  mappings.foldl (fun acc p =>
    if instances.contains p.1 then add_osmorphing_mapping acc p.2 p.1 else acc)
    []

/-- The per-OSMorphing-pool checks of
validate_minion_pool_selections_for_action (server.py:392-419): existence,
endpoint against the destination endpoint, destination platform, then the
count check.  Note server.py performs no os_type check in this loop. -/
def validate_osmorphing_pool_groups (pools : List MinionPool)
    (action : ActionView) :
    List (String × List String) → Except Exc Unit
  | [] => Except.ok ()
  | (pid, instances_to_osmorph) :: rest =>
    match find_pool pools pid with
    | none => Except.error Exc.notFound
    | some osmorphing_pool =>
      if !(osmorphing_pool.endpoint_id == action.destination_endpoint_id) then
        Except.error Exc.invalidMinionPoolSelection
      else if !(osmorphing_pool.platform == Platform.destination) then
        Except.error Exc.invalidMinionPoolSelection
      else
        match check_pool_minion_count osmorphing_pool instances_to_osmorph with
        | Except.error e => Except.error e
        | Except.ok _ => validate_osmorphing_pool_groups pools action rest

/-- validate_minion_pool_selections_for_action (server.py:257-422): origin
checks, then destination checks, then the OSMorphing group checks. -/
def validate_minion_pool_selections_for_action (pools : List MinionPool)
    (action : ActionView) : Except Exc Unit :=
  match validate_origin_pool pools action with
  | Except.error e => Except.error e
  | Except.ok _ =>
    match validate_destination_pool pools action with
    | Except.error e => Except.error e
    | Except.ok _ =>
      validate_osmorphing_pool_groups pools action
        (group_osmorphing_mappings
          action.instance_osmorphing_minion_pool_mappings action.instances)

/-! ## Per-action reservation subflow (server.py:470-646) -/

/-- _select_machine (server.py:505-523): the first machine of the pool that
is not excluded and is AVAILABLE. -/
def select_machine (pool : MinionPool) (exclude : List String) :
    Option MinionMachine :=
  pool.minion_machines.find? (fun m =>
    !(exclude.contains m.id) && (m.status == MachineStatus.available))

/-- The in-memory state built by the per-instance loop of
_make_minion_machine_allocation_subflow_for_action (server.py:525-576). -/
structure ReservationPlan where
  allocations : List (String × String)
  newRows : List MinionMachine
  existingIds : List String
  flow : List FlowNode
  nextUuid : Nat

/-- The per-instance loop (server.py:529-576): duplicate instances raise
InvalidInput; an available machine is reserved with a
healthcheck-with-reallocation subflow; otherwise a new UNINITIALIZED row
with allocated_action set to the action id is planned together with an
AllocateMinionMachineTask. -/
def reservation_plan_loop (pool : MinionPool) (action_id : String)
    (uuidGen : Nat → String) :
    List String → ReservationPlan → Except Exc ReservationPlan
  | [], plan => Except.ok plan
  | instance_id :: rest, plan =>
    if (plan.allocations.map Prod.fst).contains instance_id then
      Except.error Exc.invalidInput
    else
      match select_machine pool (plan.allocations.map Prod.snd) with
      | some minion_machine =>
        reservation_plan_loop pool action_id uuidGen rest
          { plan with
            allocations :=
              plan.allocations ++ [(instance_id, minion_machine.id)]
            existingIds := plan.existingIds ++ [minion_machine.id]
            flow := plan.flow ++
              [FlowNode.healthcheckFlow pool.id minion_machine.id
                (some action_id) MachineStatus.inUse] }
      | none =>
        let new_machine_id := uuidGen plan.nextUuid
        let new_row : MinionMachine :=
          { id := new_machine_id, pool_id := pool.id
            status := MachineStatus.uninitialized
            allocated_action := some action_id
            last_used_at := none }
        reservation_plan_loop pool action_id uuidGen rest
          { plan with
            allocations := plan.allocations ++ [(instance_id, new_machine_id)]
            newRows := plan.newRows ++ [new_row]
            flow := plan.flow ++
              [FlowNode.allocateMachine pool.id new_machine_id (some action_id)]
            nextUuid := plan.nextUuid + 1 }

/-- Fault injection for the store writes of the reservation procedure:
whether the IN_USE batch fails, which new-row inserts fail, and whether the
rollback batch-revert itself fails. -/
structure DbFaults where
  batchSetFails : Bool
  failingAdds : List String
  revertFails : Bool
  deriving DecidableEq, Repr

/-- The fault-free store. -/
def no_faults : DbFaults :=
  { batchSetFails := false, failingAdds := [], revertFails := false }

/-- The except-block of server.py:599-637.  Its first statement
(server.py:600-606) evaluates the LOG.warn argument
[m.id for m in new_machine_db_entries_added]; that list holds the id strings
appended at server.py:598, so when it is non-empty the attribute access
raises AttributeError out of the except-block before any revert runs,
masking the original error.  When it is empty, the pre-existing machines are
batch-reverted to AVAILABLE without refreshing the allocation time (a
failure of that revert is swallowed), the delete loop iterates over the
empty list of added entries, and the original error is re-raised. -/
def reservation_db_rollback (faults : DbFaults) (original_error : Exc)
    (st : Store) (existingIds : List String) (added : List String)
    (now : Nat) : Except (Exc × Store) Store :=
  if !added.isEmpty then
    Except.error (Exc.attributeError, st)
  else
    let st1 :=
      if faults.revertFails then st
      else set_minion_machines_allocation_statuses st existingIds none
        MachineStatus.available false now
    Except.error (original_error, st1)

/-- The new-row insertion loop of server.py:592-598, tracking the ids added
so far and entering the rollback on an injected insert failure. -/
def reservation_add_loop (faults : DbFaults) (existingIds : List String)
    (now : Nat) :
    Store → List MinionMachine → List String → Except (Exc × Store) Store
  | st, [], _ => Except.ok st
  | st, row :: rest, added =>
    if faults.failingAdds.contains row.id then
      reservation_db_rollback faults Exc.dbError st existingIds added now
    else
      reservation_add_loop faults existingIds now
        (add_minion_machine st row) rest (added ++ [row.id])

/-- The store phase of the reservation (server.py:578-637): batch-mark the
chosen pre-existing machines IN_USE with a refreshed allocation time, then
insert the new rows one by one; any failure enters the rollback block. -/
def reservation_db_phase (faults : DbFaults) (st : Store) (action_id : String)
    (existingIds : List String) (newRows : List MinionMachine) (now : Nat) :
    Except (Exc × Store) Store :=
  if faults.batchSetFails then
    reservation_db_rollback faults Exc.dbError st existingIds [] now
  else
    reservation_add_loop faults existingIds now
      (set_minion_machines_allocation_statuses st existingIds (some action_id)
        MachineStatus.inUse true now)
      newRows []

/-- The successful result of the reservation subflow builder: the store
after its writes, the subflow, and the instance-to-machine mapping. -/
structure ReservationOk where
  store : Store
  flow : List FlowNode
  allocations : List (String × String)

/-- _make_minion_machine_allocation_subflow_for_action (server.py:470-646).
Errors carry the store at the moment of the raise. -/
def make_minion_machine_allocation_subflow_for_action
    (faults : DbFaults) (st : Store) (pool : MinionPool) (action_id : String)
    (action_instances : List String) (uuidGen : Nat → String) (now : Nat) :
    Except (Exc × Store) ReservationOk :=
  if (action_instances.length : Int) >
      ((pool.minion_machines.filter
          (fun m => m.status == MachineStatus.available)).length : Int) +
        ((pool.maximum_minions : Int) -
          (pool.minion_machines.length : Int)) then
    Except.error (Exc.invalidMinionPoolState, st)
  else
    match reservation_plan_loop pool action_id uuidGen action_instances
        { allocations := [], newRows := [], existingIds := [], flow := []
          nextUuid := 0 } with
    | Except.error e => Except.error (e, st)
    | Except.ok plan =>
      match reservation_db_phase faults st action_id plan.existingIds
          plan.newRows now with
      | Except.error es => Except.error es
      | Except.ok st2 =>
        Except.ok { store := st2, flow := plan.flow
                    allocations := plan.allocations }

/-! ## Pool refresh flow (server.py:1059-1131) -/

/-- The expiry test of server.py:1082-1087: a machine that never recorded
last_used_at counts as expired. -/
def minion_machine_expired (machine : MinionMachine) (max_idle_time : Nat)
    (now : Nat) : Bool :=
  match machine.last_used_at with
  | none => true
  | some lu => decide (lu + max_idle_time ≤ now)

/-- The state threaded through the per-machine loop of
_get_minion_pool_refresh_flow (server.py:1070-1103). -/
structure RefreshAcc where
  budget : Int
  toDealloc : List String
  toHealthcheck : List String
  skipped : List (String × MachineStatus)
  flow : List FlowNode

/-- One iteration of the refresh loop (server.py:1077-1103): non-AVAILABLE
machines are skipped; an AVAILABLE expired machine is selected for
deallocation while the running budget is positive; otherwise the machine is
healthchecked. -/
def refresh_step (pool : MinionPool) (now : Nat) (acc : RefreshAcc)
    (machine : MinionMachine) : RefreshAcc :=
  if !(machine.status == MachineStatus.available) then
    { acc with skipped := acc.skipped ++ [(machine.id, machine.status)] }
  else if acc.budget > 0 &&
      minion_machine_expired machine pool.minion_max_idle_time now then
    { acc with budget := acc.budget - 1
               toDealloc := acc.toDealloc ++ [machine.id]
               flow := acc.flow ++
                 [FlowNode.deallocateMachine pool.id machine.id] }
  else
    { acc with toHealthcheck := acc.toHealthcheck ++ [machine.id]
               flow := acc.flow ++
                 [FlowNode.healthcheckFlow pool.id machine.id none
                   MachineStatus.available] }

/-- The initial loop state: the deallocation budget is
len(machines) - minimum_minions (server.py:1070-1071). -/
def initial_refresh_acc (pool : MinionPool) : RefreshAcc :=
  { budget := (pool.minion_machines.length : Int) -
      (pool.minimum_minions : Int)
    toDealloc := [], toHealthcheck := [], skipped := [], flow := [] }

/-- The machine-classification part of _get_minion_pool_refresh_flow
(server.py:1059-1103). -/
def get_minion_pool_refresh_flow (pool : MinionPool) (now : Nat) :
    RefreshAcc :=
  pool.minion_machines.foldl (refresh_step pool now) (initial_refresh_acc pool)

/-- The synchronous status updates performed after classification
(server.py:1105-1123): machines selected for deallocation are marked
DEALLOCATING, those selected for healthchecking HEALTHCHECKING. -/
def refresh_store_updates (st : Store) (acc : RefreshAcc) : Store :=
  acc.toHealthcheck.foldl
    (fun s mid => set_minion_machine_status s mid MachineStatus.healthchecking)
    (acc.toDealloc.foldl
      (fun s mid => set_minion_machine_status s mid MachineStatus.deallocating)
      st)

/-! ## Concrete example inputs

Concrete pools, machines, stores and actions used to evaluate the
definitions above at explicit inputs. -/

/-- A concrete ALLOCATED pool used to exhibit the startup behaviour. -/
def poolC9 : MinionPool :=
  { id := "p9", endpoint_id := "e9", platform := Platform.destination
    os_type := "linux", status := PoolStatus.allocated
    minimum_minions := 1, maximum_minions := 2, minion_max_idle_time := 600
    minion_machines := [] }

/-- A store holding one IN_USE machine allocated to an action. -/
def storeC7 : Store :=
  { machines := [{ id := "m7", pool_id := "p7"
                   status := MachineStatus.inUse
                   allocated_action := some "a7", last_used_at := some 3 }] }

/-- A destination OSMorphing pool whose os_type is not Linux. -/
def poolC3 : MinionPool :=
  { id := "p3", endpoint_id := "e3", platform := Platform.destination
    os_type := "windows", status := PoolStatus.allocated
    minimum_minions := 0, maximum_minions := 1, minion_max_idle_time := 600
    minion_machines := [] }

/-- An action selecting poolC3 only as the OSMorphing pool of its sole
instance. -/
def actionC3 : ActionView :=
  { id := "a3", origin_endpoint_id := "eo3", destination_endpoint_id := "e3"
    origin_minion_pool_id := none, destination_minion_pool_id := none
    instance_osmorphing_minion_pool_mappings := [("vm1", "p3")]
    instances := ["vm1"] }

/-- A source-platform origin pool whose os_type is not Linux. -/
def poolC3b : MinionPool :=
  { id := "p3b", endpoint_id := "e3b", platform := Platform.source
    os_type := "windows", status := PoolStatus.allocated
    minimum_minions := 0, maximum_minions := 1, minion_max_idle_time := 600
    minion_machines := [] }

/-- An action selecting poolC3b as its origin pool. -/
def actionC3b : ActionView :=
  { id := "a3b", origin_endpoint_id := "e3b", destination_endpoint_id := "ed3"
    origin_minion_pool_id := some "p3b", destination_minion_pool_id := none
    instance_osmorphing_minion_pool_mappings := []
    instances := ["vm1"] }

/-- An ALLOCATED pool with no machines, ready for deallocation. -/
def poolC4b : MinionPool :=
  { id := "p4b", endpoint_id := "e4b", platform := Platform.destination
    os_type := "linux", status := PoolStatus.allocated
    minimum_minions := 0, maximum_minions := 2, minion_max_idle_time := 600
    minion_machines := [] }

/-- A pool already in DEALLOCATED status. -/
def poolC4 : MinionPool :=
  { id := "p4", endpoint_id := "e4", platform := Platform.destination
    os_type := "linux", status := PoolStatus.deallocated
    minimum_minions := 0, maximum_minions := 2, minion_max_idle_time := 600
    minion_machines := [] }

/-- An empty ALLOCATED pool with room for a single machine. -/
def poolC1 : MinionPool :=
  { id := "p1", endpoint_id := "e1", platform := Platform.destination
    os_type := "linux", status := PoolStatus.allocated
    minimum_minions := 0, maximum_minions := 1, minion_max_idle_time := 600
    minion_machines := [] }

/-- A deterministic uuid stream for evaluating the builders. -/
def uuid_stream (n : Nat) : String :=
  "new-" ++ toString n

/-- An AVAILABLE machine of poolC2. -/
def machineC2 : MinionMachine :=
  { id := "m2", pool_id := "p2", status := MachineStatus.available
    allocated_action := none, last_used_at := some 1 }

/-- An ALLOCATED pool holding one AVAILABLE machine, with room to upscale
two more. -/
def poolC2 : MinionPool :=
  { id := "p2", endpoint_id := "e2", platform := Platform.destination
    os_type := "linux", status := PoolStatus.allocated
    minimum_minions := 1, maximum_minions := 3, minion_max_idle_time := 600
    minion_machines := [machineC2] }

/-- Faults making the insert of the second new row (id "new-1") fail. -/
def faultsC2 : DbFaults :=
  { batchSetFails := false, failingAdds := ["new-1"], revertFails := false }

/-- An empty ALLOCATED pool with maximum_minions = 4, as in the
over-subscription scenario of the spec. -/
def poolC6 : MinionPool :=
  { id := "p6", endpoint_id := "e6", platform := Platform.destination
    os_type := "linux", status := PoolStatus.allocated
    minimum_minions := 2, maximum_minions := 4, minion_max_idle_time := 600
    minion_machines := [] }

/-- A pool requiring two upfront minions. -/
def poolC8 : MinionPool :=
  { id := "p8", endpoint_id := "e8", platform := Platform.source
    os_type := "linux", status := PoolStatus.deallocated
    minimum_minions := 2, maximum_minions := 4, minion_max_idle_time := 600
    minion_machines := [] }

/-- An injective uuid stream (distinct letter runs). -/
def uuid_runs (n : Nat) : String :=
  String.mk (List.replicate n 'a')

/-- An AVAILABLE machine that never recorded a last-used time. -/
def machineC10 : MinionMachine :=
  { id := "m10", pool_id := "p10", status := MachineStatus.available
    allocated_action := none, last_used_at := none }

/-- A pool whose only machine is machineC10, with minimum_minions = 0 so the
deallocation budget is positive. -/
def poolC10 : MinionPool :=
  { id := "p10", endpoint_id := "e10", platform := Platform.destination
    os_type := "linux", status := PoolStatus.allocated
    minimum_minions := 0, maximum_minions := 2, minion_max_idle_time := 600
    minion_machines := [machineC10] }

/-! ## Claim C5: refresh-period clamping -/

/-- C5.  The claim says every configured value outside [1, 60] is replaced
by the default of 10.  The code (server.py:89-93) replaces values ≤ 0 by 1,
not by 10: at the concrete configured value 0 the effective period is 1. -/
theorem c5_counterexample :
    effective_refresh_period 0 = 1 ∧ (1 : Int) ≠ 10 := by
  constructor
  · rfl
  · decide

/-- C5 (amended).  The effective refresh period equals the configured value
when it lies in [1, 60]; configured values ≤ 0 are replaced by 1 and values
> 60 by 10; the result always lies in [1, 60]. -/
theorem c5_effective_refresh_period_clamp (p : Int) :
    (p ≤ 0 → effective_refresh_period p = 1) ∧
    (60 < p → effective_refresh_period p = 10) ∧
    (1 ≤ p → p ≤ 60 → effective_refresh_period p = p) ∧
    (1 ≤ effective_refresh_period p ∧ effective_refresh_period p ≤ 60) := by
  unfold effective_refresh_period
  refine ⟨fun h => by simp [h], fun h => ?_, fun h1 h2 => ?_, ?_⟩
  · rw [if_neg (by omega), if_pos h]
  · rw [if_neg (by omega), if_neg (by omega)]
  · by_cases h : p ≤ 0
    · simp [h]
    · rw [if_neg h]
      by_cases h2 : p > 60
      · simp [h2]
      · rw [if_neg h2]
        omega

/-- C5 witness: the theorem applied at the concrete configured values 0,
75 and 30. -/
theorem c5_witness :
    effective_refresh_period 0 = 1 ∧
    effective_refresh_period 75 = 10 ∧
    effective_refresh_period 30 = 30 :=
  ⟨(c5_effective_refresh_period_clamp 0).1 (by decide),
   (c5_effective_refresh_period_clamp 75).2.1 (by decide),
   (c5_effective_refresh_period_clamp 30).2.2.1 (by decide) (by decide)⟩

/-! ## Claim C9: startup cron registration -/

/-- C9.  The claim says that on startup every ALLOCATED pool gets one refresh
job per minute in {k*P}.  The startup constructor never invokes _init_cron
(the call at server.py:65 is commented out), so for the concrete ALLOCATED
pool poolC9 and configured period 10 no job at all is registered at startup,
although the minute set is non-empty. -/
theorem c9_counterexample :
    minion_manager_startup_cron_jobs [poolC9] 10 = [] ∧
    poolC9.status = PoolStatus.allocated ∧
    refresh_job_minutes 10 = [0, 10, 20, 30, 40, 50] := by
  refine ⟨rfl, rfl, ?_⟩
  rfl

/-- C9 (amended).  _init_cron, when invoked, registers for every pool in
ALLOCATED status exactly the refresh jobs at minutes k*P for
k < ceil(60 / P) (P the clamped period), and registers no job for pools in
any other status; the startup constructor however does not invoke it, so no
jobs are registered at startup.  The characterization below settles the
registration part. -/
theorem c9_init_cron_characterization
    (pools : List MinionPool) (period_minutes : Int) (j : CronJob) :
    j ∈ init_cron pools period_minutes ↔
      ∃ pool, pool ∈ pools ∧ pool.status = PoolStatus.allocated ∧
        ∃ k, k < (60 + (effective_refresh_period period_minutes).toNat - 1) /
                (effective_refresh_period period_minutes).toNat ∧
          j = refresh_cron_job pool
                ((effective_refresh_period period_minutes).toNat * k) := by
  unfold init_cron register_refresh_jobs_for_minion_pool refresh_job_minutes
  constructor
  · intro hj
    rw [List.mem_flatMap] at hj
    obtain ⟨pool, hp, hj⟩ := hj
    rw [List.mem_filter, beq_iff_eq] at hp
    rw [List.mem_map] at hj
    obtain ⟨minute, hm, rfl⟩ := hj
    rw [List.mem_map] at hm
    obtain ⟨k, hk, rfl⟩ := hm
    rw [List.mem_range] at hk
    exact ⟨pool, hp.1, hp.2, k, hk, rfl⟩
  · rintro ⟨pool, hp, hs, k, hk, rfl⟩
    rw [List.mem_flatMap]
    refine ⟨pool, ?_, ?_⟩
    · rw [List.mem_filter, beq_iff_eq]
      exact ⟨hp, hs⟩
    · rw [List.mem_map]
      refine ⟨(effective_refresh_period period_minutes).toNat * k, ?_, rfl⟩
      rw [List.mem_map]
      exact ⟨k, List.mem_range.mpr hk, rfl⟩

/-- C9 witness: the characterization applied at the concrete pool poolC9 with
period 10, showing the job at minute 20 is registered by _init_cron. -/
theorem c9_witness :
    refresh_cron_job poolC9 20 ∈ init_cron [poolC9] 10 :=
  (c9_init_cron_characterization [poolC9] 10 (refresh_cron_job poolC9 20)).2
    ⟨poolC9, by decide, rfl, 2, by decide, by rfl⟩

/-! ## Claim C7: idempotence of deallocate_minion_machine -/

/-- The row update of update_minion_machine preserves the machine id. -/
theorem update_minion_machine_row_id (mid : String) (s : MachineStatus)
    (aa : Option String) (m : MinionMachine) :
    (update_minion_machine_row mid s aa m).id = m.id := by
  unfold update_minion_machine_row
  split <;> rfl

/-- The row update of update_minion_machine is idempotent. -/
theorem update_minion_machine_row_idem (mid : String) (s : MachineStatus)
    (aa : Option String) (m : MinionMachine) :
    update_minion_machine_row mid s aa (update_minion_machine_row mid s aa m)
      = update_minion_machine_row mid s aa m := by
  unfold update_minion_machine_row
  by_cases h : (m.id == mid) = true
  · simp [h]
  · simp only [Bool.not_eq_true] at h
    simp [h]

/-- Looking a machine up after update_minion_machine finds the updated row. -/
theorem find_map_update (l : List MinionMachine) (mid : String)
    (s : MachineStatus) (aa : Option String) :
    (l.map (update_minion_machine_row mid s aa)).find? (fun m => m.id == mid)
      = (l.find? (fun m => m.id == mid)).map
          (update_minion_machine_row mid s aa) := by
  induction l with
  | nil => rfl
  | cons a rest ih =>
    simp only [List.map_cons, List.find?_cons, update_minion_machine_row_id]
    by_cases h : (a.id == mid) = true
    · simp [h]
    · simp only [Bool.not_eq_true] at h
      simp [h, ih]

/-- C7.  Calling deallocate_minion_machine twice on the same machine id
yields exactly the state of the first call (both calls succeed; with the
machine absent both return early), and after either call an existing machine
is AVAILABLE with a null allocated action. -/
theorem c7_deallocate_minion_machine_idempotent (st : Store) (mid : String) :
    deallocate_minion_machine (deallocate_minion_machine st mid) mid
      = deallocate_minion_machine st mid ∧
    (∀ m, get_minion_machine (deallocate_minion_machine st mid) mid = some m →
      m.status = MachineStatus.available ∧ m.allocated_action = none) := by
  rcases h : get_minion_machine st mid with _ | a
  · refine ⟨?_, ?_⟩
    · simp only [deallocate_minion_machine, h]
    · intro m hm
      simp only [deallocate_minion_machine, h] at hm
      exact Option.noConfusion hm
  · have hfind : st.machines.find? (fun m => m.id == mid) = some a := h
    have pred_a : (a.id == mid) = true := by
      simpa using List.find?_some hfind
    have upd_a :
        update_minion_machine_row mid MachineStatus.available none a
          = { a with status := MachineStatus.available
                     allocated_action := none } := by
      unfold update_minion_machine_row
      rw [if_pos pred_a]
    have get_after :
        get_minion_machine
            (update_minion_machine st mid MachineStatus.available none) mid
          = some (update_minion_machine_row mid MachineStatus.available none
              a) := by
      unfold get_minion_machine update_minion_machine
      rw [find_map_update, hfind]
      rfl
    refine ⟨?_, ?_⟩
    · simp only [deallocate_minion_machine, h, get_after]
      unfold update_minion_machine
      simp only [List.map_map]
      congr 1
      congr 1
      funext m
      exact update_minion_machine_row_idem mid MachineStatus.available none m
    · intro m hm
      simp only [deallocate_minion_machine, h] at hm
      rw [get_after] at hm
      cases hm
      rw [upd_a]
      exact ⟨rfl, rfl⟩

/-- C7 witness: the theorem applied to the concrete store storeC7 holding
the IN_USE machine "m7"; the hypothesis of its second conjunct is
discharged by evaluating the lookup. -/
theorem c7_witness :
    deallocate_minion_machine (deallocate_minion_machine storeC7 "m7") "m7"
      = deallocate_minion_machine storeC7 "m7" ∧
    ({ id := "m7", pool_id := "p7", status := MachineStatus.available
       allocated_action := none
       last_used_at := some 3 : MinionMachine }.status
        = MachineStatus.available ∧
     ({ id := "m7", pool_id := "p7", status := MachineStatus.available
        allocated_action := none
        last_used_at := some 3 : MinionMachine }).allocated_action = none) :=
  ⟨(c7_deallocate_minion_machine_idempotent storeC7 "m7").1,
   (c7_deallocate_minion_machine_idempotent storeC7 "m7").2
     { id := "m7", pool_id := "p7", status := MachineStatus.available
       allocated_action := none, last_used_at := some 3 } (by rfl)⟩

/-! ## Claim C4: deallocate_minion_pool preconditions -/

/-- C4.  The claim says deallocate_pool without force raises InvalidPoolState
for every pool whose status is not ALLOCATED or ERROR; a pool already in
DEALLOCATED status however returns early without raising
(server.py:1419-1423). -/
theorem c4_counterexample :
    deallocate_minion_pool poolC4 false
      = Except.ok PoolDeallocationOutcome.earlyReturn ∧
    poolC4.status ≠ PoolStatus.allocated ∧
    poolC4.status ≠ PoolStatus.error :=
  ⟨rfl, by decide, by decide⟩

/-- C4 (amended).  deallocate_minion_pool returns early for a DEALLOCATED
pool; without force it raises for any other status outside
{ALLOCATED, ERROR}; it raises when machines are in use unless forced; it
launches the deallocation flow when the status is acceptable and no machine
is in use, and always when forced (status not DEALLOCATED). -/
theorem c4_deallocate_minion_pool_cases (pool : MinionPool) (force : Bool) :
    (pool.status = PoolStatus.deallocated →
      deallocate_minion_pool pool force
        = Except.ok PoolDeallocationOutcome.earlyReturn) ∧
    (pool.status ≠ PoolStatus.deallocated →
      pool.status ≠ PoolStatus.allocated → pool.status ≠ PoolStatus.error →
      force = false →
      deallocate_minion_pool pool force
        = Except.error Exc.invalidMinionPoolState) ∧
    ((pool.status = PoolStatus.allocated ∨ pool.status = PoolStatus.error) →
      pool_machines_in_use pool ≠ [] → force = false →
      deallocate_minion_pool pool force
        = Except.error Exc.invalidMinionPoolState) ∧
    ((pool.status = PoolStatus.allocated ∨ pool.status = PoolStatus.error) →
      pool_machines_in_use pool = [] →
      deallocate_minion_pool pool force
        = Except.ok (PoolDeallocationOutcome.launched
            (get_minion_pool_deallocation_flow pool))) ∧
    (pool.status ≠ PoolStatus.deallocated → force = true →
      deallocate_minion_pool pool force
        = Except.ok (PoolDeallocationOutcome.launched
            (get_minion_pool_deallocation_flow pool))) := by
  unfold deallocate_minion_pool
  refine ⟨fun h => by simp [h], fun h1 h2 h3 h4 => ?_, fun h1 h2 h3 => ?_,
    fun h1 h2 => ?_, fun h1 h2 => ?_⟩
  · subst h4
    simp [h1, h2, h3]
  · rcases h1 with h1 | h1 <;> subst h3 <;> simp [h1, h2]
  · rcases h1 with h1 | h1 <;> simp [h1, h2]
  · subst h2
    simp [h1]

/-- C4 witness: the amended theorem applied at the DEALLOCATED pool poolC4
(early return) and at the machineless ALLOCATED pool poolC4b (launch). -/
theorem c4_witness :
    deallocate_minion_pool poolC4 false
      = Except.ok PoolDeallocationOutcome.earlyReturn ∧
    deallocate_minion_pool poolC4b false
      = Except.ok (PoolDeallocationOutcome.launched
          (get_minion_pool_deallocation_flow poolC4b)) :=
  ⟨(c4_deallocate_minion_pool_cases poolC4 false).1 rfl,
   (c4_deallocate_minion_pool_cases poolC4b false).2.2.2.1 (Or.inl rfl) rfl⟩

/-! ## Claim C3: os_type validation for pool selections -/

/-- C3.  The claim says the validation raises InvalidMinionPoolSelection for
each OSMorphing pool whose os_type is not Linux.  For the concrete action
actionC3, whose only pool reference is the OSMorphing pool poolC3 with
os_type "windows", the validation succeeds: server.py:392-419 checks the
endpoint, platform and count of OSMorphing pools but never their os_type. -/
theorem c3_counterexample :
    validate_minion_pool_selections_for_action [poolC3] actionC3
      = Except.ok () ∧
    poolC3.os_type ≠ OS_TYPE_LINUX :=
  ⟨rfl, by decide⟩

/-- C3 (amended).  The Linux os_type requirement (raising
InvalidMinionPoolSelection) applies to the origin pool and to the
destination pool; OSMorphing pools are not os_type-checked. -/
theorem c3_os_type_check_origin_destination :
    (∀ (pools : List MinionPool) (action : ActionView) (pid : String)
        (pool : MinionPool),
      action.origin_minion_pool_id = some pid →
      find_pool pools pid = some pool →
      pool.endpoint_id = action.origin_endpoint_id →
      pool.platform = Platform.source →
      pool.os_type ≠ OS_TYPE_LINUX →
      validate_minion_pool_selections_for_action pools action
        = Except.error Exc.invalidMinionPoolSelection) ∧
    (∀ (pools : List MinionPool) (action : ActionView) (pid : String)
        (pool : MinionPool),
      action.origin_minion_pool_id = none →
      action.destination_minion_pool_id = some pid →
      find_pool pools pid = some pool →
      pool.endpoint_id = action.destination_endpoint_id →
      pool.platform = Platform.destination →
      pool.os_type ≠ OS_TYPE_LINUX →
      validate_minion_pool_selections_for_action pools action
        = Except.error Exc.invalidMinionPoolSelection) := by
  constructor
  · intro pools action pid pool h1 h2 h3 h4 h5
    have horigin : validate_origin_pool pools action
        = Except.error Exc.invalidMinionPoolSelection := by
      unfold validate_origin_pool
      simp only [h1, h2, h3, h4]
      simp [h5]
    unfold validate_minion_pool_selections_for_action
    rw [horigin]
  · intro pools action pid pool h0 h1 h2 h3 h4 h5
    have horigin : validate_origin_pool pools action = Except.ok () := by
      unfold validate_origin_pool
      rw [h0]
    have hdest : validate_destination_pool pools action
        = Except.error Exc.invalidMinionPoolSelection := by
      unfold validate_destination_pool
      simp only [h1, h2, h3, h4]
      simp [h5]
    unfold validate_minion_pool_selections_for_action
    rw [horigin, hdest]

/-- C3 witness: the amended theorem applied to the concrete action actionC3b
whose origin pool poolC3b has os_type "windows". -/
theorem c3_witness :
    validate_minion_pool_selections_for_action [poolC3b] actionC3b
      = Except.error Exc.invalidMinionPoolSelection :=
  c3_os_type_check_origin_destination.1 [poolC3b] actionC3b "p3b" poolC3b
    rfl rfl rfl rfl (by decide)

/-! ## Claim C6: over-subscription rejection -/

/-- C6.  When the requested instance count exceeds the number of AVAILABLE
machines plus the remaining headroom (maximum_minions - machine count), the
reservation subflow builder raises InvalidMinionPoolState immediately,
before any store mutation: the error carries the unchanged store
(server.py:484-503). -/
theorem c6_oversubscription_rejected
    (faults : DbFaults) (st : Store) (pool : MinionPool) (action_id : String)
    (action_instances : List String) (uuidGen : Nat → String) (now : Nat)
    (hover : (action_instances.length : Int) >
      ((pool.minion_machines.filter
          (fun m => m.status == MachineStatus.available)).length : Int) +
        ((pool.maximum_minions : Int) -
          (pool.minion_machines.length : Int))) :
    make_minion_machine_allocation_subflow_for_action faults st pool action_id
        action_instances uuidGen now
      = Except.error (Exc.invalidMinionPoolState, st) := by
  unfold make_minion_machine_allocation_subflow_for_action
  rw [if_pos hover]

/-- C6 witness: the spec's over-subscription scenario — five instances
against the empty pool poolC6 with maximum_minions = 4. -/
theorem c6_witness :
    make_minion_machine_allocation_subflow_for_action no_faults
        { machines := [] } poolC6 "a6" ["i1", "i2", "i3", "i4", "i5"]
        uuid_stream 0
      = Except.error (Exc.invalidMinionPoolState, { machines := [] }) :=
  c6_oversubscription_rejected no_faults { machines := [] } poolC6 "a6"
    ["i1", "i2", "i3", "i4", "i5"] uuid_stream 0 (by decide)

/-! ## Claim C1: the IN_USE/allocated_action equivalence -/

/-- C1.  The claim says a machine row inserted by the per-action reservation
in a status other than IN_USE has a null allocated_action.  For the empty
pool poolC1 and one instance, the reservation inserts a row in UNINITIALIZED
status whose allocated_action is the action id (server.py:562-568), so the
equivalence status = IN_USE ⇔ allocated_action ≠ null fails on it. -/
theorem c1_counterexample :
    make_minion_machine_allocation_subflow_for_action no_faults
        { machines := [] } poolC1 "a1" ["i1"] uuid_stream 0
      = Except.ok
          { store := { machines :=
              [{ id := "new-0"
                 pool_id := "p1"
                 status := MachineStatus.uninitialized
                 allocated_action := some "a1"
                 last_used_at := none }] }
            flow := [FlowNode.allocateMachine "p1" "new-0" (some "a1")]
            allocations := [("i1", "new-0")] } ∧
    MachineStatus.uninitialized ≠ MachineStatus.inUse ∧
    (some "a1" : Option String) ≠ none :=
  ⟨rfl, by decide, by decide⟩

/-- Every new row planned by the reservation loop keeps the shape it is
created with at server.py:562-568. -/
theorem reservation_plan_loop_newRows (pool : MinionPool) (action_id : String)
    (uuidGen : Nat → String) (instances : List String)
    (plan0 plan1 : ReservationPlan)
    (hinv : ∀ m ∈ plan0.newRows, m.status = MachineStatus.uninitialized ∧
      m.allocated_action = some action_id)
    (hrun : reservation_plan_loop pool action_id uuidGen instances plan0
      = Except.ok plan1) :
    ∀ m ∈ plan1.newRows, m.status = MachineStatus.uninitialized ∧
      m.allocated_action = some action_id := by
  induction instances generalizing plan0 with
  | nil =>
    unfold reservation_plan_loop at hrun
    cases hrun
    exact hinv
  | cons inst rest ih =>
    unfold reservation_plan_loop at hrun
    by_cases hdup : ((plan0.allocations.map Prod.fst).contains inst) = true
    · rw [if_pos hdup] at hrun
      exact absurd hrun (by simp)
    · rw [if_neg hdup] at hrun
      cases hsel : select_machine pool (plan0.allocations.map Prod.snd) with
      | some mm =>
        rw [hsel] at hrun
        exact ih
          { plan0 with
            allocations := plan0.allocations ++ [(inst, mm.id)]
            existingIds := plan0.existingIds ++ [mm.id]
            flow := plan0.flow ++ [FlowNode.healthcheckFlow pool.id mm.id
              (some action_id) MachineStatus.inUse] }
          hinv hrun
      | none =>
        rw [hsel] at hrun
        refine ih
          { plan0 with
            allocations :=
              plan0.allocations ++ [(inst, uuidGen plan0.nextUuid)]
            newRows := plan0.newRows ++
              [{ id := uuidGen plan0.nextUuid
                 pool_id := pool.id
                 status := MachineStatus.uninitialized
                 allocated_action := some action_id
                 last_used_at := none }]
            flow := plan0.flow ++ [FlowNode.allocateMachine pool.id
              (uuidGen plan0.nextUuid) (some action_id)]
            nextUuid := plan0.nextUuid + 1 }
          ?_ hrun
        intro m hm
        simp only [List.mem_append, List.mem_singleton] at hm
        rcases hm with hm | hm
        · exact hinv m hm
        · subst hm
          exact ⟨rfl, rfl⟩

/-- C1 (amended).  Machines batch-marked by the reservation get IN_USE with
the action id, and deallocations null the action; but every machine row the
per-action reservation procedure plans for insertion has status
UNINITIALIZED together with a NON-null allocated_action equal to the action
id, so the IN_USE ⇔ non-null equivalence does not hold for inserted rows. -/
theorem c1_inserted_rows_uninitialized_with_action (pool : MinionPool)
    (action_id : String) (uuidGen : Nat → String) (instances : List String)
    (plan : ReservationPlan)
    (hrun : reservation_plan_loop pool action_id uuidGen instances
        { allocations := [], newRows := [], existingIds := [], flow := []
          nextUuid := 0 }
      = Except.ok plan) :
    ∀ m ∈ plan.newRows, m.status = MachineStatus.uninitialized ∧
      m.allocated_action = some action_id :=
  reservation_plan_loop_newRows pool action_id uuidGen instances _ plan
    (by intro m hm; exact absurd hm (by simp)) hrun

/-- C1 witness: the amended theorem applied to the concrete reservation of
one instance from the empty pool poolC1, at its planned row. -/
theorem c1_witness :
    ({ id := "new-0", pool_id := "p1"
       status := MachineStatus.uninitialized
       allocated_action := some "a1"
       last_used_at := none } : MinionMachine).status
        = MachineStatus.uninitialized ∧
    ({ id := "new-0", pool_id := "p1"
       status := MachineStatus.uninitialized
       allocated_action := some "a1"
       last_used_at := none } : MinionMachine).allocated_action
        = some "a1" :=
  c1_inserted_rows_uninitialized_with_action poolC1 "a1" uuid_stream ["i1"]
    { allocations := [("i1", "new-0")]
      newRows := [{ id := "new-0"
                    pool_id := "p1"
                    status := MachineStatus.uninitialized
                    allocated_action := some "a1"
                    last_used_at := none }]
      existingIds := []
      flow := [FlowNode.allocateMachine "p1" "new-0" (some "a1")]
      nextUuid := 1 }
    rfl
    { id := "new-0"
      pool_id := "p1"
      status := MachineStatus.uninitialized
      allocated_action := some "a1"
      last_used_at := none }
    (by simp)

/-! ## Claim C2: rollback of a failed reservation store phase -/

/-- C2.  Evaluating the reservation at poolC2 (one AVAILABLE machine "m2",
room for two more) for three instances, with the insert of the second new
row ("new-1") failing: the pre-existing machine "m2" has already been
batch-marked IN_USE and the first new row ("new-0") inserted; the rollback
block then raises AttributeError (its LOG.warn argument at server.py:605
does `.id` on the id strings appended at server.py:598), which masks the
original error, skips the revert of "m2" to AVAILABLE, and never deletes
"new-0".  The final state contradicts the claimed rollback guarantees. -/
theorem c2_rollback_bug_evaluation :
    make_minion_machine_allocation_subflow_for_action faultsC2
        { machines := [machineC2] } poolC2 "a2" ["i1", "i2", "i3"]
        uuid_stream 5
      = Except.error (Exc.attributeError,
          { machines :=
            [{ id := "m2", pool_id := "p2", status := MachineStatus.inUse
               allocated_action := some "a2", last_used_at := some 5 },
             { id := "new-0", pool_id := "p2"
               status := MachineStatus.uninitialized
               allocated_action := some "a2", last_used_at := none }] }) := by
  rfl

/-! ## Claim C8: AllocateMachine tasks of the pool allocation flow -/

/-- Counting the AllocateMachine tasks of an unordered machine subflow. -/
theorem count_allocate_machine_tasks_list_map (pid : String)
    (ids : List String) :
    count_allocate_machine_tasks_list
        (ids.map (fun mid => FlowNode.allocateMachine pid mid none))
      = ids.length := by
  induction ids with
  | nil => rfl
  | cons a rest ih =>
    simp only [List.map_cons, count_allocate_machine_tasks_list,
      count_allocate_machine_tasks, ih, List.length_cons]
    omega

/-- The injectivity of the letter-run uuid stream. -/
theorem uuid_runs_injective : Function.Injective uuid_runs := by
  intro a b h
  have h2 : (uuid_runs a).data.length = (uuid_runs b).data.length := by
    rw [h]
  simpa [uuid_runs] using h2

/-- C8.  With minimum_minions = 0 the allocation flow holds no
AllocateMachine task and no ALLOCATING_MACHINES transition; with
minimum_minions = n > 0 it is exactly the linear flow whose fifth element is
the ALLOCATING_MACHINES transition immediately followed by the unordered
subflow of n AllocateMachine tasks over n distinct fresh machine ids. -/
theorem c8_allocation_flow_machine_tasks (pool : MinionPool)
    (uuidGen : Nat → String) (hinj : Function.Injective uuidGen) :
    (pool.minimum_minions = 0 →
      count_allocate_machine_tasks_list
          (get_minion_pool_allocation_flow pool uuidGen) = 0 ∧
      FlowNode.updateStatus pool.id PoolStatus.allocatingMachines none
        ∉ get_minion_pool_allocation_flow pool uuidGen) ∧
    (0 < pool.minimum_minions →
      get_minion_pool_allocation_flow pool uuidGen =
        [FlowNode.updateStatus pool.id PoolStatus.validatingInputs
            (some PoolStatus.error),
         FlowNode.validateOptions pool.id,
         FlowNode.updateStatus pool.id PoolStatus.allocatingSharedResources
           none,
         FlowNode.allocateShared pool.id,
         FlowNode.updateStatus pool.id PoolStatus.allocatingMachines none,
         FlowNode.unorderedSub
           (((List.range pool.minimum_minions).map uuidGen).map
             (fun mid => FlowNode.allocateMachine pool.id mid none)),
         FlowNode.updateStatus pool.id PoolStatus.allocated none] ∧
      count_allocate_machine_tasks_list
          (get_minion_pool_allocation_flow pool uuidGen)
        = pool.minimum_minions ∧
      ((List.range pool.minimum_minions).map uuidGen).Nodup) := by
  constructor
  · intro h
    have hflow : get_minion_pool_allocation_flow pool uuidGen =
        [FlowNode.updateStatus pool.id PoolStatus.validatingInputs
            (some PoolStatus.error),
         FlowNode.validateOptions pool.id,
         FlowNode.updateStatus pool.id PoolStatus.allocatingSharedResources
           none,
         FlowNode.allocateShared pool.id,
         FlowNode.updateStatus pool.id PoolStatus.allocated none] := by
      unfold get_minion_pool_allocation_flow
      rw [h]
      rfl
    constructor
    · rw [hflow]
      rfl
    · rw [hflow]
      intro hmem
      simp at hmem
  · intro h
    have hne : ((((List.range pool.minimum_minions).map uuidGen).map
        (fun mid => FlowNode.allocateMachine pool.id mid none)).isEmpty)
          = false := by
      rcases Nat.exists_eq_add_of_lt h with ⟨k, hk⟩
      rw [show pool.minimum_minions = k + 1 by omega]
      rw [List.range_succ]
      simp
    have hflow : get_minion_pool_allocation_flow pool uuidGen =
        [FlowNode.updateStatus pool.id PoolStatus.validatingInputs
            (some PoolStatus.error),
         FlowNode.validateOptions pool.id,
         FlowNode.updateStatus pool.id PoolStatus.allocatingSharedResources
           none,
         FlowNode.allocateShared pool.id,
         FlowNode.updateStatus pool.id PoolStatus.allocatingMachines none,
         FlowNode.unorderedSub
           (((List.range pool.minimum_minions).map uuidGen).map
             (fun mid => FlowNode.allocateMachine pool.id mid none)),
         FlowNode.updateStatus pool.id PoolStatus.allocated none] := by
      unfold get_minion_pool_allocation_flow
      simp [hne, Nat.pos_iff_ne_zero.mp h]
    refine ⟨hflow, ?_, ?_⟩
    · rw [hflow]
      simp only [count_allocate_machine_tasks_list,
        count_allocate_machine_tasks, count_allocate_machine_tasks_list_map]
      simp
    · exact (List.nodup_range pool.minimum_minions).map hinj

/-- C8 witness: the theorem applied at poolC8 (minimum_minions = 2) with the
injective stream uuid_runs; the flow holds exactly two AllocateMachine
tasks. -/
theorem c8_witness :
    count_allocate_machine_tasks_list
        (get_minion_pool_allocation_flow poolC8 uuid_runs)
      = poolC8.minimum_minions :=
  ((c8_allocation_flow_machine_tasks poolC8 uuid_runs
      uuid_runs_injective).2 (by decide)).2.1

/-! ## Claim C10: refresh of never-used AVAILABLE machines -/

/-- The sweep of set_minion_machine_status calls over a list of ids updates
every matching row. -/
theorem foldl_set_status_machines (ids : List String) (s : MachineStatus)
    (st : Store) :
    (ids.foldl (fun acc mid => set_minion_machine_status acc mid s)
        st).machines
      = st.machines.map (set_status_row ids s) := by
  induction ids generalizing st with
  | nil =>
    simp only [List.foldl_nil]
    have hfun : set_status_row [] s = id := funext fun m => rfl
    rw [hfun, List.map_id]
  | cons a rest ih =>
    rw [List.foldl_cons, ih]
    unfold set_minion_machine_status
    simp only [List.map_map]
    congr 1
    funext m
    simp only [Function.comp_apply, set_status_row, List.contains_cons]
    by_cases h : (m.id == a) = true
    · have h2 : m.id = a := by simpa using h
      simp [h, h2]
    · have h2 : ¬ (m.id = a) := by simpa using h
      simp [h, h2]

/-- The id of a row is unchanged by the status sweep. -/
theorem set_status_row_id (ids : List String) (s : MachineStatus)
    (m : MinionMachine) : (set_status_row ids s m).id = m.id := by
  unfold set_status_row
  split <;> rfl

/-- A row whose id is not listed is unchanged by the status sweep. -/
theorem set_status_row_not_mem (ids : List String) (s : MachineStatus)
    (m : MinionMachine) (h : ids.contains m.id = false) :
    set_status_row ids s m = m := by
  unfold set_status_row
  rw [h]
  simp

/-- A row whose id is listed gets the swept status. -/
theorem set_status_row_mem (ids : List String) (s : MachineStatus)
    (m : MinionMachine) (h : ids.contains m.id = true) :
    set_status_row ids s m = { m with status := s } := by
  unfold set_status_row
  rw [h]
  simp

/-- C10.  An AVAILABLE machine whose last_used_at is null is treated as
expired by the refresh builder: while the running deallocation budget
(initialized to len(machines) - minimum_minions) is positive, the machine is
selected for deallocation (a DeallocateMachine task, not a healthcheck), and
the synchronous status sweep marks every deallocation-selected machine
DEALLOCATING in the store. -/
theorem c10_refresh_null_last_used (pool : MinionPool) (now : Nat)
    (acc : RefreshAcc) (machine : MinionMachine)
    (hav : machine.status = MachineStatus.available)
    (hnull : machine.last_used_at = none) :
    (0 < acc.budget →
      refresh_step pool now acc machine
        = { acc with budget := acc.budget - 1
                     toDealloc := acc.toDealloc ++ [machine.id]
                     flow := acc.flow ++
                       [FlowNode.deallocateMachine pool.id machine.id] }) ∧
    (get_minion_pool_refresh_flow pool now
      = pool.minion_machines.foldl (refresh_step pool now)
          { budget := (pool.minion_machines.length : Int) -
              (pool.minimum_minions : Int)
            toDealloc := [], toHealthcheck := [], skipped := [], flow := [] }) ∧
    (∀ (st : Store) (acc2 : RefreshAcc) (m : MinionMachine),
      m ∈ (refresh_store_updates st acc2).machines →
      acc2.toDealloc.contains m.id = true →
      acc2.toHealthcheck.contains m.id = false →
      m.status = MachineStatus.deallocating) := by
  refine ⟨?_, rfl, ?_⟩
  · intro hbudget
    unfold refresh_step
    rw [hav]
    simp only [minion_machine_expired, hnull]
    simp [hbudget]
  · intro st acc2 m hm hd hh
    unfold refresh_store_updates at hm
    rw [foldl_set_status_machines, foldl_set_status_machines,
      List.map_map] at hm
    obtain ⟨m0, hm0, rfl⟩ := List.mem_map.mp hm
    have hid2 : ((set_status_row acc2.toHealthcheck
        MachineStatus.healthchecking ∘
        set_status_row acc2.toDealloc MachineStatus.deallocating) m0).id
          = m0.id := by
      simp only [Function.comp_apply]
      rw [set_status_row_id, set_status_row_id]
    rw [hid2] at hd hh
    simp only [Function.comp_apply]
    rw [set_status_row_not_mem _ _ _ (by rw [set_status_row_id]; exact hh)]
    rw [set_status_row_mem _ _ _ hd]

/-- C10 witness: the theorem applied to the never-used AVAILABLE machine
machineC10 of poolC10, whose initial deallocation budget is 1. -/
theorem c10_witness :
    refresh_step poolC10 0 (initial_refresh_acc poolC10) machineC10
      = { budget := 0
          toDealloc := ["m10"]
          toHealthcheck := []
          skipped := []
          flow := [FlowNode.deallocateMachine "p10" "m10"] } :=
  (c10_refresh_null_last_used poolC10 0 (initial_refresh_acc poolC10)
      machineC10 rfl rfl).1 (by decide)

end Coriolis
